import Mathlib

/-!
Shallow embedding of the Completion Client of `Front-app/Assistant.py`
(function `call_gemini_api`, lines 54-110) and of the UI controller's
content-truncation step (lines 211-224).

Python strings are modelled by Lean `String` (Python indexes and measures
strings by code point, as does `String.length`/`String.data` here).  JSON
values are modelled by the inductive `Json` below; Python dicts keep unique
keys, modelled as association lists read with `List.lookup`.  The network is
modelled by a transport oracle mapping each attempt index to what
`requests.post` does on that attempt: either it returns an HTTP response
(whose body parses as JSON) or it raises a `RequestException` that carries no
response (a connection failure).  `time.sleep` and the POSTs are recorded in
an explicit trace.
-/

/-- JSON values, as produced by `response.json()`. -/
inductive Json where
  | null
  | bool (b : Bool)
  | num (n : Int)
  | str (s : String)
  | arr (items : List Json)
  | obj (fields : List (String × Json))

/-- An HTTP response as seen by the client: its status code and its parsed
JSON body. -/
structure HttpResponse where
  status : Nat
  body : Json

/-- What `requests.post` does on one attempt: return a response, or raise a
`requests.exceptions.RequestException` with no response attached (e.g. a
connection failure), carrying a detail string `str(e)`. -/
inductive TransportStep where
  | resp (r : HttpResponse)
  | connError (detail : String)

/-- The transport oracle: behaviour of `requests.post` on each attempt index. -/
abbrev ApiTransport : Type := Nat → TransportStep

/-- Python `d.get(key, default)`: on a JSON object, the value bound to the key,
or the default when the key is absent; on any non-object value the attribute
lookup raises `AttributeError` (caught by the generic handler of line 107). -/
def pyGet (j : Json) (key : String) (default : Json) : Except String Json :=
  match j with
  | .obj fields =>
    match List.lookup key fields with
    | some v => .ok v
    | none => .ok default
  | _ => .error "AttributeError"

/-- Python `xs[0]`: the first element of a JSON array; raises
`IndexError("list index out of range")` on an empty array.  Indexing any
non-list value either raises or yields a value that makes the next `.get`
raise; all such paths end in the generic handler of line 107, modelled here
as a `TypeError` detail. -/
def pyIndex0 (j : Json) : Except String Json :=
  match j with
  | .arr (x :: _) => .ok x
  | .arr [] => .error "list index out of range"
  | _ => .error "TypeError"

/-- Line 96: the extraction chain
`result.get('candidates', [{}])[0].get('content', {}).get('parts', [{}])[0].get('text', 'No response generated.')`. -/
def extract_text (result : Json) : Except String Json :=
  match pyGet result "candidates" (.arr [.obj []]) with
  | .error e => .error e
  | .ok cands =>
    match pyIndex0 cands with
    | .error e => .error e
    | .ok c0 =>
      match pyGet c0 "content" (.obj []) with
      | .error e => .error e
      | .ok content =>
        match pyGet content "parts" (.arr [.obj []]) with
        | .error e => .error e
        | .ok parts =>
          match pyIndex0 parts with
          | .error e => .error e
          | .ok p0 => pyGet p0 "text" (.str "No response generated.")

/-- Lines 62-68: the system instruction string. -/
def system_prompt : String :=
  "You are a highly efficient document analyst and summarization assistant. " ++
  "Your primary goal is to answer the user\x27s question with a clear, concise, " ++
  "and accurate summary based *only* on the provided \x27DOCUMENT CONTENT\x27. " ++
  "If the information required to answer the question is not present in the content, " ++
  "you MUST explicitly state, \x27I could not find the answer in the provided documents.\x27"

/-- Lines 71-75: the combined prompt built from the document content and the
user query. -/
def full_prompt (document_content user_query : String) : String :=
  "--- DOCUMENT CONTENT ---\n\n" ++ document_content ++ "\n\n" ++
  "--- USER QUESTION ---\n\n" ++ user_query ++ "\n\n" ++
  "--- INSTRUCTIONS ---\n\nBased ONLY on the document content above, provide the summary or answer the question:"

/-- Lines 77-80: the JSON request body sent to the endpoint. -/
def payload (document_content user_query : String) : Json :=
  .obj [("contents", .arr [.obj [("parts",
            .arr [.obj [("text", .str (full_prompt document_content user_query))]])]]),
        ("systemInstruction", .obj [("parts",
            .arr [.obj [("text", .str system_prompt)]])])]

/-- Line 87: `max_retries = 5`. -/
def max_retries : Nat := 5

/-- Line 100: the retryable status codes `[429, 500, 503]`. -/
def retryable : List Nat := [429, 500, 503]

/-- Line 106: the message `An API error occurred after {attempt + 1} attempts: {e}`. -/
def api_error_msg (attempt : Nat) (detail : String) : String :=
  "An API error occurred after " ++ toString (attempt + 1) ++ " attempts: " ++ detail

/-- The detail string `str(e)` of the `HTTPError` raised by
`response.raise_for_status()`; the requests library renders it from the
status code, reason phrase and URL, modelled abstractly as a function of the
status code alone. -/
def http_error_detail (status : Nat) : String :=
  toString status ++ " Error for url"

/-- Outcome of one call: either the function returns a value (the extracted
text or one of the failure-message strings), or an exception escapes it
uncaught. -/
inductive CallResult where
  | ret (v : Json)
  | exc (e : String)

/-- Observable trace of one call: its outcome, the durations passed to
`time.sleep` in order, and the body of every POST issued, in order. -/
structure CallTrace where
  result : CallResult
  sleeps : List Nat
  posts : List Json

/-- Lines 88-110: the retry loop.  `fuel` is the number of loop iterations
still allowed (initially `max_retries`), `attempt` the Python loop variable
(so `fuel + attempt = max_retries` throughout), `prevResponse` the current
value of the local variable `response` (none while it is still unbound).
When `requests.post` raises, the handler of line 99 evaluates
`attempt < max_retries - 1 and response.status_code in [429, 500, 503]`:
with `response` still unbound this raises `UnboundLocalError`, which no
sibling `except` clause catches, so it escapes the function. -/
def attemptLoop (t : ApiTransport) (p : Json) :
    Nat → Nat → Option HttpResponse → List Nat → List Json → CallTrace
  | 0, _, _, sleeps, posts =>
    ⟨.ret (.str "Failed to get a response from the API after multiple retries."),
      sleeps, posts⟩
  | fuel + 1, attempt, prevResponse, sleeps, posts =>
    let posts := posts ++ [p]
    match t attempt with
    | .connError detail =>
      if attempt < max_retries - 1 then
        match prevResponse with
        | none => ⟨.exc "UnboundLocalError", sleeps, posts⟩
        | some r =>
          if r.status ∈ retryable then
            attemptLoop t p fuel (attempt + 1) prevResponse
              (sleeps ++ [2 ^ attempt]) posts
          else
            ⟨.ret (.str (api_error_msg attempt detail)), sleeps, posts⟩
      else
        ⟨.ret (.str (api_error_msg attempt detail)), sleeps, posts⟩
    | .resp r =>
      if 400 ≤ r.status ∧ r.status < 600 then
        if attempt < max_retries - 1 then
          if r.status ∈ retryable then
            attemptLoop t p fuel (attempt + 1) (some r)
              (sleeps ++ [2 ^ attempt]) posts
          else
            ⟨.ret (.str (api_error_msg attempt (http_error_detail r.status))),
              sleeps, posts⟩
        else
          ⟨.ret (.str (api_error_msg attempt (http_error_detail r.status))),
            sleeps, posts⟩
      else
        match extract_text r.body with
        | .ok v => ⟨.ret v, sleeps, posts⟩
        | .error detail =>
          ⟨.ret (.str ("An unexpected error occurred: " ++ detail)), sleeps, posts⟩

/-- Lines 54-110: `call_gemini_api(document_content, user_query)`, with the
network abstracted into the transport oracle `t`. -/
def call_gemini_api (t : ApiTransport) (document_content user_query : String) :
    CallTrace :=
  if document_content = "" ∨ user_query = "" then
    ⟨.ret (.str "Please upload documents and enter a question."), [], []⟩
  else
    attemptLoop t (payload document_content user_query) max_retries 0 none [] []

/-- Line 217: `MAX_CHARS = 150000`. -/
def MAX_CHARS : Nat := 150000

/-- Lines 217-220: the UI controller truncates over-long content with a
user-visible warning.  Returns the content handed to the client and whether
the warning was shown; Python `s[:MAX_CHARS]` keeps the first `MAX_CHARS`
characters. -/
def truncate_content (full_content : String) : String × Bool :=
  if full_content.length > MAX_CHARS then
    (⟨full_content.data.take MAX_CHARS⟩, true)
  else
    (full_content, false)

/-- Lines 211-224: on query submission the controller truncates the combined
document text, then calls the Completion Client. -/
def generate_summary (t : ApiTransport) (full_content user_query : String) :
    CallTrace :=
  call_gemini_api t (truncate_content full_content).1 user_query

/-- A transport answering HTTP 503 on every attempt. -/
def t503all : ApiTransport := fun _ => .resp ⟨503, .obj []⟩

/-- A transport whose POST raises a connection failure on every attempt. -/
def tConnFail : ApiTransport := fun _ => .connError "Connection refused"

/-- A transport answering HTTP 404 on every attempt. -/
def t404 : ApiTransport := fun _ => .resp ⟨404, .obj []⟩

/-- A transport answering HTTP 200 with a fixed body on every attempt. -/
def t200body (b : Json) : ApiTransport := fun _ => .resp ⟨200, b⟩

/-- A transport answering HTTP 503 on attempt 0 and raising a connection
failure on every later attempt. -/
def tStale : ApiTransport := fun n =>
  if n = 0 then .resp ⟨503, .obj []⟩ else .connError "boom"

/-- A well-formed success body whose extracted text is `Hello`. -/
def goodBody : Json :=
  .obj [("candidates", .arr [
    .obj [("content", .obj [("parts", .arr [.obj [("text", .str "Hello")]])])]])]

/-- A transport answering HTTP 503 on attempts 0-3 and HTTP 200 with a valid
body on attempt 4. -/
def tSuccessAfter4 : ApiTransport := fun n =>
  if n < 4 then .resp ⟨503, .obj []⟩ else .resp ⟨200, goodBody⟩

/-- A 150001-character string, one character over the truncation cap. -/
def bigString : String := ⟨List.replicate 150001 'a'⟩

/-- One retry step of the loop: the attempt got an HTTP error response with a
retryable status and attempts remain, so the client sleeps `2 ^ attempt` and
retries with `response` now bound to this response. -/
theorem attemptLoop_resp_retry (t : ApiTransport) (p : Json) (fuel attempt : Nat)
    (prev : Option HttpResponse) (sleeps : List Nat) (posts : List Json)
    (r : HttpResponse) (hstep : t attempt = .resp r)
    (herr : 400 ≤ r.status ∧ r.status < 600)
    (hlt : attempt < max_retries - 1) (hmem : r.status ∈ retryable) :
    attemptLoop t p (fuel + 1) attempt prev sleeps posts =
      attemptLoop t p fuel (attempt + 1) (some r)
        (sleeps ++ [2 ^ attempt]) (posts ++ [p]) := by
  simp only [attemptLoop, hstep]
  rw [if_pos herr, if_pos hlt, if_pos hmem]

/-- One retry step after a transport-level exception: the previous attempt's
response is bound and has a retryable status, so the client sleeps and
retries, leaving `response` at its stale value. -/
theorem attemptLoop_conn_retry (t : ApiTransport) (p : Json) (fuel attempt : Nat)
    (r : HttpResponse) (d : String) (sleeps : List Nat) (posts : List Json)
    (hstep : t attempt = .connError d)
    (hlt : attempt < max_retries - 1) (hmem : r.status ∈ retryable) :
    attemptLoop t p (fuel + 1) attempt (some r) sleeps posts =
      attemptLoop t p fuel (attempt + 1) (some r)
        (sleeps ++ [2 ^ attempt]) (posts ++ [p]) := by
  simp only [attemptLoop, hstep]
  rw [if_pos hlt, if_pos hmem]

/-- Whatever the transport does, the sleeps already accumulated are kept: the
remaining iterations only append further sleeps. -/
theorem attemptLoop_sleeps_extend (t : ApiTransport) (p : Json) (fuel : Nat) :
    ∀ attempt prev sleeps posts,
      ∃ rest, (attemptLoop t p fuel attempt prev sleeps posts).sleeps =
        sleeps ++ rest := by
  induction fuel with
  | zero =>
    intro attempt prev sleeps posts
    exact ⟨[], by simp [attemptLoop]⟩
  | succ n ih =>
    intro attempt prev sleeps posts
    cases h : t attempt with
    | connError d =>
      by_cases hlt : attempt < max_retries - 1
      · cases prev with
        | none => exact ⟨[], by simp [attemptLoop, h, hlt]⟩
        | some r =>
          by_cases hmem : r.status ∈ retryable
          · obtain ⟨rest, hrest⟩ :=
              ih (attempt + 1) (some r) (sleeps ++ [2 ^ attempt]) (posts ++ [p])
            refine ⟨2 ^ attempt :: rest, ?_⟩
            rw [attemptLoop_conn_retry t p n attempt r d sleeps posts h hlt hmem,
              hrest]
            simp
          · exact ⟨[], by simp [attemptLoop, h, hlt, hmem]⟩
      · exact ⟨[], by simp [attemptLoop, h, hlt]⟩
    | resp r =>
      by_cases herr : 400 ≤ r.status ∧ r.status < 600
      · by_cases hlt : attempt < max_retries - 1
        · by_cases hmem : r.status ∈ retryable
          · obtain ⟨rest, hrest⟩ :=
              ih (attempt + 1) (some r) (sleeps ++ [2 ^ attempt]) (posts ++ [p])
            refine ⟨2 ^ attempt :: rest, ?_⟩
            rw [attemptLoop_resp_retry t p n attempt prev sleeps posts r h herr
              hlt hmem, hrest]
            simp
          · exact ⟨[], by simp [attemptLoop, h, herr, hlt, hmem]⟩
        · exact ⟨[], by simp [attemptLoop, h, herr, hlt]⟩
      · cases hex : extract_text r.body with
        | ok v => exact ⟨[], by simp [attemptLoop, h, herr, hex]⟩
        | error d => exact ⟨[], by simp [attemptLoop, h, herr, hex]⟩

/-- Every body the loop POSTs is the payload it was given. -/
theorem attemptLoop_posts_const (t : ApiTransport) (p : Json) (fuel : Nat) :
    ∀ attempt prev sleeps posts, (∀ x ∈ posts, x = p) →
      ∀ x ∈ (attemptLoop t p fuel attempt prev sleeps posts).posts, x = p := by
  induction fuel with
  | zero =>
    intro attempt prev sleeps posts hp
    simpa [attemptLoop] using hp
  | succ n ih =>
    intro attempt prev sleeps posts hp
    have hp2 : ∀ x ∈ posts ++ [p], x = p := by
      intro x hx
      rcases List.mem_append.mp hx with hx | hx
      · exact hp x hx
      · simpa using hx
    cases h : t attempt with
    | connError d =>
      by_cases hlt : attempt < max_retries - 1
      · cases prev with
        | none =>
          simp only [attemptLoop, h]
          rw [if_pos hlt]
          exact hp2
        | some r =>
          by_cases hmem : r.status ∈ retryable
          · rw [attemptLoop_conn_retry t p n attempt r d sleeps posts h hlt hmem]
            exact ih (attempt + 1) (some r) (sleeps ++ [2 ^ attempt])
              (posts ++ [p]) hp2
          · simp only [attemptLoop, h]
            rw [if_pos hlt, if_neg hmem]
            exact hp2
      · simp only [attemptLoop, h]
        rw [if_neg hlt]
        exact hp2
    | resp r =>
      by_cases herr : 400 ≤ r.status ∧ r.status < 600
      · by_cases hlt : attempt < max_retries - 1
        · by_cases hmem : r.status ∈ retryable
          · rw [attemptLoop_resp_retry t p n attempt prev sleeps posts r h herr
              hlt hmem]
            exact ih (attempt + 1) (some r) (sleeps ++ [2 ^ attempt])
              (posts ++ [p]) hp2
          · simp only [attemptLoop, h]
            rw [if_pos herr, if_pos hlt, if_neg hmem]
            exact hp2
        · simp only [attemptLoop, h]
          rw [if_pos herr, if_neg hlt]
          exact hp2
      · cases hex : extract_text r.body with
        | ok v =>
          simp only [attemptLoop, h]
          rw [if_neg herr]
          simp only [hex]
          exact hp2
        | error d =>
          simp only [attemptLoop, h]
          rw [if_neg herr]
          simp only [hex]
          exact hp2

/-- Claim C1: with HTTP 503 on attempts 1-4 and HTTP 200 with a valid body on
attempt 5, the call returns the extracted text, sleeps exactly 1, 2, 4, 8 in
that order (no sleep after the success), and posts on all five attempts. -/
theorem complete_503x4_then_success (t : ApiTransport) (eb : Nat → Json)
    (body v : Json) (dc uq : String)
    (hdc : dc ≠ "") (huq : uq ≠ "")
    (hfail : ∀ n, n < 4 → t n = .resp ⟨503, eb n⟩)
    (hok : t 4 = .resp ⟨200, body⟩)
    (hex : extract_text body = .ok v) :
    call_gemini_api t dc uq =
      ⟨.ret v, [1, 2, 4, 8],
        [payload dc uq, payload dc uq, payload dc uq, payload dc uq,
          payload dc uq]⟩ := by
  have h0 := hfail 0 (by norm_num)
  have h1 := hfail 1 (by norm_num)
  have h2 := hfail 2 (by norm_num)
  have h3 := hfail 3 (by norm_num)
  unfold call_gemini_api
  rw [if_neg (not_or.mpr ⟨hdc, huq⟩)]
  simp [attemptLoop, h0, h1, h2, h3, hok, hex, retryable, max_retries]

/-- Witness for C1 at a concrete transport and body. -/
theorem complete_503x4_then_success_witness :
    ("d" : String) ≠ "" ∧ extract_text goodBody = .ok (.str "Hello") ∧
    call_gemini_api tSuccessAfter4 "d" "q" =
      ⟨.ret (.str "Hello"), [1, 2, 4, 8],
        [payload "d" "q", payload "d" "q", payload "d" "q", payload "d" "q",
          payload "d" "q"]⟩ :=
  ⟨by decide, rfl,
    complete_503x4_then_success tSuccessAfter4 (fun _ => .obj []) goodBody
      (.str "Hello") "d" "q" (by decide) (by decide)
      (fun n hn => by simp [tSuccessAfter4, hn]) (by simp [tSuccessAfter4]) rfl⟩

/-- Claim C2 counterexample: with HTTP 503 on every attempt, the call returns
the API-error message for 5 attempts, which differs from the claimed
exhausted-retries message: the return on line 110 is unreachable, because the
final loop iteration always returns from inside the loop. -/
theorem all_503_not_exhausted_message :
    (call_gemini_api t503all "doc" "q").result =
      .ret (.str "An API error occurred after 5 attempts: 503 Error for url")
    ∧ "An API error occurred after 5 attempts: 503 Error for url" ≠
      "Failed to get a response from the API after multiple retries." :=
  ⟨rfl, by decide⟩

/-- Claim C2 as amended: with HTTP 503 on all 5 attempts the call makes
exactly 5 attempts (five POSTs, no sixth) and returns
`An API error occurred after 5 attempts: <details>`. -/
theorem complete_all_503_five_attempts (t : ApiTransport) (eb : Nat → Json)
    (dc uq : String) (hdc : dc ≠ "") (huq : uq ≠ "")
    (hfail : ∀ n, n < 5 → t n = .resp ⟨503, eb n⟩) :
    call_gemini_api t dc uq =
      ⟨.ret (.str (api_error_msg 4 (http_error_detail 503))), [1, 2, 4, 8],
        [payload dc uq, payload dc uq, payload dc uq, payload dc uq,
          payload dc uq]⟩
    ∧ api_error_msg 4 (http_error_detail 503) =
      "An API error occurred after 5 attempts: " ++ http_error_detail 503 := by
  have h0 := hfail 0 (by norm_num)
  have h1 := hfail 1 (by norm_num)
  have h2 := hfail 2 (by norm_num)
  have h3 := hfail 3 (by norm_num)
  have h4 := hfail 4 (by norm_num)
  constructor
  · unfold call_gemini_api
    rw [if_neg (not_or.mpr ⟨hdc, huq⟩)]
    simp [attemptLoop, h0, h1, h2, h3, h4, retryable, max_retries]
  · rfl

/-- Witness for the amended C2 at a concrete all-503 transport. -/
theorem complete_all_503_five_attempts_witness :
    ("doc" : String) ≠ "" ∧
    call_gemini_api t503all "doc" "q" =
      ⟨.ret (.str (api_error_msg 4 (http_error_detail 503))), [1, 2, 4, 8],
        [payload "doc" "q", payload "doc" "q", payload "doc" "q",
          payload "doc" "q", payload "doc" "q"]⟩ :=
  ⟨by decide,
    (complete_all_503_five_attempts t503all (fun _ => .obj []) "doc" "q"
      (by decide) (by decide) (fun n hn => rfl)).1⟩

/-- Claim C3: if the document content or the user query is empty, the call
returns the guard-clause message immediately, with zero POSTs and zero
sleeps. -/
theorem guard_clause_no_network (t : ApiTransport) (dc uq : String)
    (h : dc = "" ∨ uq = "") :
    call_gemini_api t dc uq =
      ⟨.ret (.str "Please upload documents and enter a question."), [], []⟩ := by
  unfold call_gemini_api
  rw [if_pos h]

/-- Witness for C3 at empty document content. -/
theorem guard_clause_no_network_witness :
    (("" : String) = "" ∨ ("q" : String) = "") ∧
    call_gemini_api t503all "" "q" =
      ⟨.ret (.str "Please upload documents and enter a question."), [], []⟩ :=
  ⟨Or.inl rfl, guard_clause_no_network t503all "" "q" (Or.inl rfl)⟩

/-- Claim C4 (code bug): a transport-level exception on the first attempt,
with retries remaining, makes the handler of line 100 read
`response.status_code` while `response` is still unbound, so
`UnboundLocalError` escapes `call_gemini_api` instead of a string being
returned. -/
theorem conn_failure_first_attempt_raises (t : ApiTransport) (dc uq d : String)
    (hdc : dc ≠ "") (huq : uq ≠ "") (h0 : t 0 = .connError d) :
    (call_gemini_api t dc uq).result = .exc "UnboundLocalError" := by
  unfold call_gemini_api
  rw [if_neg (not_or.mpr ⟨hdc, huq⟩)]
  simp [attemptLoop, h0, max_retries]

/-- Witness for C4: a concrete connection failure on the first attempt. -/
theorem conn_failure_first_attempt_raises_witness :
    ("d" : String) ≠ "" ∧ ("q" : String) ≠ "" ∧
    (call_gemini_api tConnFail "d" "q").result = .exc "UnboundLocalError" :=
  ⟨by decide, by decide,
    conn_failure_first_attempt_raises tConnFail "d" "q" "Connection refused"
      (by decide) (by decide) rfl⟩

/-- Claim C5: a non-retryable HTTP 404 on the first attempt gives no retry and
no sleep, and the message references attempt count 1 in the form
`An API error occurred after 1 attempts: <details>`. -/
theorem non_retryable_404_first_attempt (t : ApiTransport) (body : Json)
    (dc uq : String) (hdc : dc ≠ "") (huq : uq ≠ "")
    (h0 : t 0 = .resp ⟨404, body⟩) :
    call_gemini_api t dc uq =
      ⟨.ret (.str (api_error_msg 0 (http_error_detail 404))), [], [payload dc uq]⟩
    ∧ api_error_msg 0 (http_error_detail 404) =
      "An API error occurred after 1 attempts: " ++ http_error_detail 404 := by
  constructor
  · unfold call_gemini_api
    rw [if_neg (not_or.mpr ⟨hdc, huq⟩)]
    simp [attemptLoop, h0, retryable, max_retries]
  · rfl

/-- Witness for C5 at a concrete 404 transport. -/
theorem non_retryable_404_first_attempt_witness :
    ("d" : String) ≠ "" ∧
    call_gemini_api t404 "d" "q" =
      ⟨.ret (.str (api_error_msg 0 (http_error_detail 404))), [],
        [payload "d" "q"]⟩ :=
  ⟨by decide,
    (non_retryable_404_first_attempt t404 (.obj []) "d" "q"
      (by decide) (by decide) rfl).1⟩

/-- Claim C6: a 200 response whose body lacks `candidates` — or lacks any
expected key along `candidates[0].content.parts[0].text` — makes the call
return the placeholder `No response generated.` as a success, with no retry. -/
theorem missing_fields_placeholder (t tc tp tx : ApiTransport) (dc uq : String)
    (hdc : dc ≠ "") (huq : uq ≠ "")
    (l c k pr : List (String × Json))
    (h1 : List.lookup "candidates" l = none)
    (h2 : List.lookup "content" c = none)
    (h3 : List.lookup "parts" k = none)
    (h4 : List.lookup "text" pr = none)
    (ht : t 0 = .resp ⟨200, .obj l⟩)
    (htc : tc 0 = .resp ⟨200, .obj [("candidates", .arr [.obj c])]⟩)
    (htp : tp 0 = .resp ⟨200, .obj [("candidates",
      .arr [.obj [("content", .obj k)]])]⟩)
    (htx : tx 0 = .resp ⟨200, .obj [("candidates",
      .arr [.obj [("content", .obj [("parts", .arr [.obj pr])])]])]⟩) :
    call_gemini_api t dc uq =
      ⟨.ret (.str "No response generated."), [], [payload dc uq]⟩
    ∧ call_gemini_api tc dc uq =
      ⟨.ret (.str "No response generated."), [], [payload dc uq]⟩
    ∧ call_gemini_api tp dc uq =
      ⟨.ret (.str "No response generated."), [], [payload dc uq]⟩
    ∧ call_gemini_api tx dc uq =
      ⟨.ret (.str "No response generated."), [], [payload dc uq]⟩ := by
  refine ⟨?_, ?_, ?_, ?_⟩
  · unfold call_gemini_api
    rw [if_neg (not_or.mpr ⟨hdc, huq⟩)]
    simp [attemptLoop, ht, extract_text, pyGet, pyIndex0, h1, max_retries]
  · unfold call_gemini_api
    rw [if_neg (not_or.mpr ⟨hdc, huq⟩)]
    simp [attemptLoop, htc, extract_text, pyGet, pyIndex0, h2, max_retries]
  · unfold call_gemini_api
    rw [if_neg (not_or.mpr ⟨hdc, huq⟩)]
    simp [attemptLoop, htp, extract_text, pyGet, pyIndex0, h3, max_retries]
  · unfold call_gemini_api
    rw [if_neg (not_or.mpr ⟨hdc, huq⟩)]
    simp [attemptLoop, htx, extract_text, pyGet, pyIndex0, h4, max_retries]

/-- Witness for C6 at concrete bodies with the respective keys absent. -/
theorem missing_fields_placeholder_witness :
    ("d" : String) ≠ "" ∧
    call_gemini_api (t200body (.obj [])) "d" "q" =
      ⟨.ret (.str "No response generated."), [], [payload "d" "q"]⟩ :=
  ⟨by decide,
    (missing_fields_placeholder (t200body (.obj []))
      (t200body (.obj [("candidates", .arr [.obj []])]))
      (t200body (.obj [("candidates", .arr [.obj [("content", .obj [])]])]))
      (t200body (.obj [("candidates", .arr [.obj [("content",
        .obj [("parts", .arr [.obj []])])]])]))
      "d" "q" (by decide) (by decide) [] [] [] []
      rfl rfl rfl rfl rfl rfl rfl rfl).1⟩

/-- Claim C7: after a transport-level exception on the current attempt, the
handler inspects the status code of the previous attempt's response.  With a
503 response on attempt 0, the exception on attempt 1 is retried on the
strength of that stale 503 (a second sleep, of duration 2, occurs); with no
previous response at all there is no status to inspect and
`UnboundLocalError` escapes — the failing attempt itself contributes no
status code. -/
theorem retry_checks_previous_response (t t2 : ApiTransport) (b : Json)
    (dc uq d1 d2 : String) (hdc : dc ≠ "") (huq : uq ≠ "")
    (h0 : t 0 = .resp ⟨503, b⟩) (h1 : t 1 = .connError d1)
    (h2 : t2 0 = .connError d2) :
    (∃ rest, (call_gemini_api t dc uq).sleeps = 1 :: 2 :: rest)
    ∧ (call_gemini_api t2 dc uq).result = .exc "UnboundLocalError" := by
  constructor
  · unfold call_gemini_api
    rw [if_neg (not_or.mpr ⟨hdc, huq⟩)]
    rw [show (max_retries : Nat) = 4 + 1 from rfl]
    rw [attemptLoop_resp_retry t (payload dc uq) 4 0 none [] [] ⟨503, b⟩ h0
      (by norm_num) (by norm_num [max_retries]) (by simp [retryable])]
    rw [show (4 : Nat) = 3 + 1 from rfl]
    rw [attemptLoop_conn_retry t (payload dc uq) 3 1 ⟨503, b⟩ d1
      ([] ++ [2 ^ 0]) ([] ++ [payload dc uq]) h1 (by norm_num [max_retries])
      (by simp [retryable])]
    obtain ⟨rest, hrest⟩ := attemptLoop_sleeps_extend t (payload dc uq) 3 2
      (some ⟨503, b⟩) (([] ++ [2 ^ 0]) ++ [2 ^ 1])
      (([] ++ [payload dc uq]) ++ [payload dc uq])
    refine ⟨rest, ?_⟩
    rw [hrest]
    simp
  · unfold call_gemini_api
    rw [if_neg (not_or.mpr ⟨hdc, huq⟩)]
    simp [attemptLoop, h2, max_retries]

/-- Witness for C7 at concrete transports. -/
theorem retry_checks_previous_response_witness :
    ("d" : String) ≠ "" ∧
    (∃ rest, (call_gemini_api tStale "d" "q").sleeps = 1 :: 2 :: rest) ∧
    (call_gemini_api tConnFail "d" "q").result = .exc "UnboundLocalError" :=
  ⟨by decide,
    (retry_checks_previous_response tStale tConnFail (.obj []) "d" "q"
      "boom" "Connection refused" (by decide) (by decide) rfl rfl rfl).1,
    (retry_checks_previous_response tStale tConnFail (.obj []) "d" "q"
      "boom" "Connection refused" (by decide) (by decide) rfl rfl rfl).2⟩

/-- Claim C8: for non-empty inputs, every request body POSTed by the call has
exactly the shape `contents = [parts = [text = full prompt]]` with
`systemInstruction = parts = [text = system prompt]`, where the full prompt
is the DOCUMENT CONTENT section holding the document content verbatim, then
the USER QUESTION section holding the user query verbatim, then the
instruction line telling the model to answer only from the content above. -/
theorem request_body_shape (t : ApiTransport) (dc uq : String)
    (hdc : dc ≠ "") (huq : uq ≠ "") :
    ∀ x ∈ (call_gemini_api t dc uq).posts,
      x = Json.obj [("contents", .arr [.obj [("parts", .arr [.obj [("text", .str
            ("--- DOCUMENT CONTENT ---\n\n" ++ dc ++ "\n\n" ++
             "--- USER QUESTION ---\n\n" ++ uq ++ "\n\n" ++
             "--- INSTRUCTIONS ---\n\nBased ONLY on the document content above, provide the summary or answer the question:"))]])]]),
           ("systemInstruction", .obj [("parts",
             .arr [.obj [("text", .str system_prompt)]])])] := by
  intro x hx
  rw [call_gemini_api, if_neg (not_or.mpr ⟨hdc, huq⟩)] at hx
  have hx2 := attemptLoop_posts_const t (payload dc uq) max_retries 0 none [] []
    (by simp) x hx
  rw [hx2]
  rfl

/-- Witness for C8: the first POST of a concrete call carries the payload of
the claimed shape. -/
theorem request_body_shape_witness :
    ("d" : String) ≠ "" ∧
    payload "d" "q" = Json.obj [("contents", .arr [.obj [("parts",
        .arr [.obj [("text", .str
            ("--- DOCUMENT CONTENT ---\n\n" ++ "d" ++ "\n\n" ++
             "--- USER QUESTION ---\n\n" ++ "q" ++ "\n\n" ++
             "--- INSTRUCTIONS ---\n\nBased ONLY on the document content above, provide the summary or answer the question:"))]])]]),
           ("systemInstruction", .obj [("parts",
             .arr [.obj [("text", .str system_prompt)]])])] :=
  ⟨by decide,
    request_body_shape t503all "d" "q" (by decide) (by decide)
      (payload "d" "q") (List.Mem.head _)⟩

/-- Claim C9: the UI controller, not the client, truncates: combined text
longer than 150000 characters is cut to exactly its first 150000 characters
with a warning before being handed to `call_gemini_api`; text of length at
most 150000 is passed unchanged with no warning. -/
theorem controller_truncation (s u uq : String) (t : ApiTransport)
    (hs : MAX_CHARS < s.length) (hu : u.length ≤ MAX_CHARS) :
    truncate_content s = (⟨s.data.take MAX_CHARS⟩, true)
    ∧ (truncate_content s).1.length = MAX_CHARS
    ∧ truncate_content u = (u, false)
    ∧ generate_summary t s uq = call_gemini_api t ⟨s.data.take MAX_CHARS⟩ uq
    ∧ generate_summary t u uq = call_gemini_api t u uq := by
  have htr : truncate_content s = (⟨s.data.take MAX_CHARS⟩, true) := by
    unfold truncate_content
    rw [if_pos hs]
  have hun : truncate_content u = (u, false) := by
    unfold truncate_content
    rw [if_neg (not_lt.mpr hu)]
  refine ⟨htr, ?_, hun, ?_, ?_⟩
  · rw [htr]
    show (s.data.take MAX_CHARS).length = MAX_CHARS
    rw [List.length_take]
    exact Nat.min_eq_left (Nat.le_of_lt hs)
  · unfold generate_summary
    rw [htr]
  · unfold generate_summary
    rw [hun]

/-- Witness for C9 at a 150001-character string and a 2-character string. -/
theorem controller_truncation_witness :
    MAX_CHARS < bigString.length ∧ ("ab" : String).length ≤ MAX_CHARS ∧
    (truncate_content bigString).1.length = MAX_CHARS ∧
    truncate_content "ab" = ("ab", false) := by
  have hs : MAX_CHARS < bigString.length := by
    show MAX_CHARS < (List.replicate 150001 'a').length
    rw [List.length_replicate]
    norm_num [MAX_CHARS]
  have hu : ("ab" : String).length ≤ MAX_CHARS := by decide
  have h := controller_truncation bigString "ab" "q" t503all hs hu
  exact ⟨hs, hu, h.2.1, h.2.2.1⟩

/-- Claim C10: a 200 body whose `candidates` (or inner `parts`) is an empty
list does not yield the placeholder: indexing `[0]` raises `IndexError`, the
generic handler catches it, and the call returns the unexpected-error string
with no retry and no sleep. -/
theorem empty_list_unexpected_error (t tp : ApiTransport) (dc uq : String)
    (hdc : dc ≠ "") (huq : uq ≠ "")
    (h0 : t 0 = .resp ⟨200, .obj [("candidates", .arr [])]⟩)
    (h1 : tp 0 = .resp ⟨200, .obj [("candidates",
      .arr [.obj [("content", .obj [("parts", .arr [])])]])]⟩) :
    call_gemini_api t dc uq =
      ⟨.ret (.str ("An unexpected error occurred: " ++ "list index out of range")),
        [], [payload dc uq]⟩
    ∧ call_gemini_api tp dc uq =
      ⟨.ret (.str ("An unexpected error occurred: " ++ "list index out of range")),
        [], [payload dc uq]⟩
    ∧ ("An unexpected error occurred: " ++ "list index out of range" : String) ≠
      "No response generated." := by
  refine ⟨?_, ?_, by decide⟩
  · unfold call_gemini_api
    rw [if_neg (not_or.mpr ⟨hdc, huq⟩)]
    simp [attemptLoop, h0, extract_text, pyGet, pyIndex0, max_retries]
  · unfold call_gemini_api
    rw [if_neg (not_or.mpr ⟨hdc, huq⟩)]
    simp [attemptLoop, h1, extract_text, pyGet, pyIndex0, max_retries]

/-- Witness for C10 at concrete empty-list bodies. -/
theorem empty_list_unexpected_error_witness :
    ("d" : String) ≠ "" ∧
    call_gemini_api (t200body (.obj [("candidates", .arr [])])) "d" "q" =
      ⟨.ret (.str ("An unexpected error occurred: " ++ "list index out of range")),
        [], [payload "d" "q"]⟩ :=
  ⟨by decide,
    (empty_list_unexpected_error (t200body (.obj [("candidates", .arr [])]))
      (t200body (.obj [("candidates",
        .arr [.obj [("content", .obj [("parts", .arr [])])]])]))
      "d" "q" (by decide) (by decide) rfl rfl).1⟩
